import Mathlib

/-!
Shallow embedding of the MacroAI image-to-3D pipeline scripts
(image_to_3d_pipeline.py, simple_3d_pipeline.py, process_images.py,
create_medical_assets.py).

External effects are parameters of the embedded functions: the remote
Blender engine is an oracle from commands to optional decoded responses
(`none` models the `None` the client returns on any transport or decode
failure), image decoding and file writes are `Except`-valued oracles, and
every embedded function additionally returns the ordered list of observable
events (commands sent, classifier invocations, sleeps) it performs.
-/

namespace MacroAI

/-- Decoded JSON response payload of one command round trip; `status` is
`result.get("status")` in the Python sources, with `none` modelling a payload
that has no status key. -/
structure Resp where
  status : Option String
deriving DecidableEq

/-- The response the mocked engine returns on success. -/
def successResp : Resp := ⟨some "success"⟩

/-- Success check used at every call site of `send_blender_command`:
the negation of the Python guard `not result or result.get("status") != "success"`
(a missing response, a payload without a status key, and a status other than
success all count as failure). -/
def respOk : Option Resp → Bool
  | some r => r.status == some "success"
  | none => false

/-- Outcome of the raw socket round trip inside `send_blender_command`:
the `send` call raised, the `recv`/`decode` call raised, or a raw string was
read back (possibly truncated by the fixed 4096-byte receive buffer). -/
inductive Transport
  | sendErr
  | recvErr
  | ok (raw : String)
deriving DecidableEq

/-- The protocol client `send_blender_command` (identical in
image_to_3d_pipeline.py and simple_3d_pipeline.py): the whole body is wrapped
in `try/except`, so a send failure, a recv failure, or a `json.loads` failure
(modelled by `jsonLoads raw = none`, which covers a truncated read) all return
`None`; a decodable response is returned as is. -/
def send_blender_command (tr : Transport) (jsonLoads : String → Option Resp) :
    Option Resp :=
  match tr with
  | .sendErr => none
  | .recvErr => none
  | .ok raw =>
    match jsonLoads raw with
    | none => none
    | some r => some r

/-- A keyframe value: a scalar or a vector, as the keyframe dictionaries of
image_to_3d_pipeline.py hold either a number or a 3-element list. -/
inductive KFVal
  | num (q : ℚ)
  | vec (v : List ℚ)
deriving DecidableEq

/-- One keyframe dictionary of an add_animation command. -/
structure KF where
  frame : ℕ
  value : KFVal
deriving DecidableEq

/-- Blender Python code strings generated by simple_3d_pipeline.py, abstracted
to the parameters interpolated into each fixed template (the templates are
constant; only these parameters vary between runs). -/
inductive Script
  | createModel (shapeType objectName texturePath : String)
  | danceAnim (modelName : String)
  | bounceAnim (modelName : String)
  | defaultAnim (modelName : String)
  | usdzExport (modelName filepath : String)
  | glbExport (modelName filepath : String)
deriving DecidableEq

/-- A protocol command: the JSON object sent on the wire, with its `type`
field as the constructor and its `params` fields as arguments.  Optional
fields model parameters that only some call sites include. -/
inductive Cmd
  | createObject (primitiveType : String) (location : List ℚ)
      (radius height size : Option ℚ)
  | applyTexture (texturePath mapping wrap : String)
  | applyMaterial (materialName : String) (color : List ℚ)
      (metallic roughness : ℚ)
  | addAnimation (animationType : String) (keyframes : List KF) (loop : Bool)
  | export (format filepath : String) (embedTextures optimizeMesh : Bool)
      (includeAnimations : Option Bool)
  | deleteObject (objectName : Option String)
  | executeCode (code : Script)
deriving DecidableEq

/-- Observable events of a pipeline run: a command leaving the protocol
client, an invocation of the shape classifier (`analyze_image`), and a
`time.sleep` call. -/
inductive Ev
  | cmd (c : Cmd)
  | classify (imagePath : String)
  | sleep (seconds : ℚ)
deriving DecidableEq

/-- Sending one command: the engine is an oracle from commands to optional
decoded responses, and the event trace records the command. -/
def send (oracle : Cmd → Option Resp) (c : Cmd) : Option Resp × List Ev :=
  (oracle c, [Ev.cmd c])

/-- True of an add_animation command event. -/
def isAnimCmdEv : Ev → Bool
  | .cmd (.addAnimation _ _ _) => true
  | _ => false

/-- True of a sleep event. -/
def isSleepEv : Ev → Bool
  | .sleep _ => true
  | _ => false

/-- True of any export-requesting event: an export command, or an
execute_code command whose script is one of the export templates. -/
def isExportCmdEv : Ev → Bool
  | .cmd (.export _ _ _ _ _) => true
  | .cmd (.executeCode (.usdzExport _ _)) => true
  | .cmd (.executeCode (.glbExport _ _)) => true
  | _ => false

/-- True of a GLB export request, in either command form. -/
def isGlbExportEv : Ev → Bool
  | .cmd (.export format _ _ _ _) => format == "GLB"
  | .cmd (.executeCode (.glbExport _ _)) => true
  | _ => false

/-- Final path component, as pathlib `Path(p).name`. -/
def pathName (p : String) : String :=
  ⟨((p.data.reverse.takeWhile (fun ch => ch ≠ '/')).reverse)⟩

/-- Characters of a file name without its last extension, following pathlib
stem semantics: no dot or only a leading dot leaves the name unchanged. -/
def stemChars (name : List Char) : List Char :=
  match (name.reverse.dropWhile (fun ch => ch ≠ '.')) with
  | [] => name
  | _ :: rest => if rest = [] then name else rest.reverse

/-- Final path component without its extension, as pathlib `Path(p).stem`. -/
def pathStem (p : String) : String :=
  ⟨stemChars (pathName p).data⟩

/-- A contour as returned by the external contour extractor: the array of
points cv2.findContours yields.  Its area, perimeter and polygonal
approximation are computed by external OpenCV routines, so those are passed
to the classifier as oracle parameters. -/
abbrev Contour : Type := List (ℤ × ℤ)

/-- Number of points of a contour, Python `len(contour)`. -/
def Contour.numPoints (c : Contour) : ℕ := List.length c

/-- Python `max(xs, key=f)` semantics: the first element attaining the
maximum key (a later element replaces the current best only when its key is
strictly greater).  Defined on a nonempty list, as the call site guards with
`if contours:`. -/
def pyMaxBy {α : Type} (f : α → ℚ) : α → List α → α
  | best, [] => best
  | best, x :: xs => if f x > f best then pyMaxBy f x xs else pyMaxBy f best xs

/-- The shape-classification branch of `analyze_image` (identical in
image_to_3d_pipeline.py lines 93-115 and simple_3d_pipeline.py lines 71-93).
`contourArea`, `arcLength` and `approxPolyDP` are the external OpenCV
routines (the closed=True flag of the latter two is constant and dropped);
`contours` is the external contour list.  With no contour the shape is
complex; otherwise the maximum-area contour is selected, and only when it has
more than 4 points is it approximated (at epsilon = 0.02 * perimeter) and
classified by vertex count; with 4 or fewer points the shape is circle. -/
def shapeType (contourArea arcLength : Contour → ℚ)
    (approxPolyDP : Contour → ℚ → Contour) (contours : List Contour) :
    String :=
  match contours with
  | [] => "complex"
  | c :: cs =>
    let largest := pyMaxBy contourArea c cs
    let perimeter := arcLength largest
    if largest.numPoints > 4 then
      let epsilon := (0.02 : ℚ) * perimeter
      let approx := approxPolyDP largest epsilon
      if approx.numPoints = 3 then "triangle"
      else if approx.numPoints = 4 then "rectangle"
      else if approx.numPoints > 4 then "complex"
      else "circle"
    else "circle"

/-- Modelled from the claim wording of the spec, for comparison with
`shapeType`: select the contour of maximum area, always approximate it at a
tolerance of 2 percent of its perimeter, and classify by the vertex count of
the approximation (3 triangle, 4 rectangle, more than 4 complex, otherwise
circle); `none` when no contour was found. -/
def specShapeType (contourArea arcLength : Contour → ℚ)
    (approxPolyDP : Contour → ℚ → Contour) (contours : List Contour) :
    Option String :=
  match contours with
  | [] => none
  | c :: cs =>
    let largest := pyMaxBy contourArea c cs
    let approx := approxPolyDP largest ((0.02 : ℚ) * arcLength largest)
    some (if approx.numPoints = 3 then "triangle"
      else if approx.numPoints = 4 then "rectangle"
      else if approx.numPoints > 4 then "complex"
      else "circle")

/-- The descriptor `analyze_image` returns (its color analysis is external
image-library behavior, so a whole descriptor is passed into the pipeline as
the outcome of the analysis step). -/
structure ImageData where
  width : ℕ
  height : ℕ
  shape_type : String
  dominant_color : ℕ × ℕ × ℕ
  area : ℚ
  complexity : ℕ
deriving DecidableEq

/-- Output root of both pipeline classes, `self.output_dir`. -/
def outputDir : String := "/Volumes/Folk_DAS/Apps/MacroAI/3D_Assets"

namespace ImagePipeline

/-- The create_object command `create_3d_model_from_image` builds from the
shape type of the descriptor (image_to_3d_pipeline.py lines 138-184):
triangle gives a cone, circle a sphere, rectangle a cube, anything else a
cylinder. -/
def createCommand (shape : String) : Cmd :=
  if shape = "triangle" then
    Cmd.createObject "CONE" [0, 0, 0] (some 1) (some 2) none
  else if shape = "circle" then
    Cmd.createObject "SPHERE" [0, 0, 0] (some 1) none none
  else if shape = "rectangle" then
    Cmd.createObject "CUBE" [0, 0, 0] none none (some 1)
  else
    Cmd.createObject "CYLINDER" [0, 0, 0] (some (0.5 : ℚ)) (some (1.5 : ℚ)) none

/-- The apply_texture command of `apply_image_texture`: the image is copied
to /tmp/blender_textures and referenced from there. -/
def textureCommand (imagePath : String) : Cmd :=
  Cmd.applyTexture ("/tmp/blender_textures/" ++ pathName imagePath) "UV" "REPEAT"

/-- The apply_material fallback command of `apply_material_color`: a flat
neutral gray. -/
def materialCommand : Cmd :=
  Cmd.applyMaterial "ImageMaterial" [(0.8 : ℚ), (0.8 : ℚ), (0.8 : ℚ)] 0 (0.5 : ℚ)

/-- The method `apply_material_color`: sends the material command and
discards the response. -/
def apply_material_color (oracle : Cmd → Option Resp) : List Ev :=
  (send oracle materialCommand).2

/-- The method `apply_image_texture`: sends the texture command; on failure
it falls back to `apply_material_color` and continues either way (it raises
nothing). -/
def apply_image_texture (oracle : Cmd → Option Resp) (imagePath : String) :
    List Ev :=
  let (r, ev) := send oracle (textureCommand imagePath)
  if respOk r then ev
  else ev ++ apply_material_color oracle

/-- The method `create_3d_model_from_image`: sends the create_object command
and raises when the response is missing or not successful; otherwise applies
the texture and returns the model name (the image file stem). -/
def create_3d_model_from_image (oracle : Cmd → Option Resp)
    (imagePath : String) (data : ImageData) :
    Except String String × List Ev :=
  let (r, ev) := send oracle (createCommand data.shape_type)
  if respOk r then
    (Except.ok (pathStem imagePath), ev ++ apply_image_texture oracle imagePath)
  else
    (Except.error "Failed to create 3D model", ev)

/-- Scale keyframes of `add_dance_animation`. -/
def danceScaleCommand : Cmd :=
  Cmd.addAnimation "scale"
    [⟨0, KFVal.num 1⟩, ⟨15, KFVal.num (1.1 : ℚ)⟩, ⟨30, KFVal.num 1⟩] true

/-- Rotation keyframes of `add_dance_animation`. -/
def danceRotationCommand : Cmd :=
  Cmd.addAnimation "rotation"
    [⟨0, KFVal.num 0⟩, ⟨30, KFVal.num 5⟩, ⟨60, KFVal.num 0⟩] true

/-- The single command of `add_bounce_animation`. -/
def bounceCommand : Cmd :=
  Cmd.addAnimation "location"
    [⟨0, KFVal.vec [0, 0, 0]⟩, ⟨15, KFVal.vec [0, 0, (0.2 : ℚ)]⟩,
     ⟨30, KFVal.vec [0, 0, 0]⟩] true

/-- The single command of `add_spin_animation`. -/
def spinCommand : Cmd :=
  Cmd.addAnimation "rotation" [⟨0, KFVal.num 0⟩, ⟨60, KFVal.num 360⟩] true

/-- The single command of `add_pulse_animation`. -/
def pulseCommand : Cmd :=
  Cmd.addAnimation "scale"
    [⟨0, KFVal.num 1⟩, ⟨20, KFVal.num (1.2 : ℚ)⟩, ⟨40, KFVal.num 1⟩] true

/-- The method `add_dance_animation`: two add_animation commands, scale then
rotation, both responses discarded. -/
def add_dance_animation (oracle : Cmd → Option Resp) : List Ev :=
  (send oracle danceScaleCommand).2 ++ (send oracle danceRotationCommand).2

/-- The method `add_bounce_animation`, response discarded. -/
def add_bounce_animation (oracle : Cmd → Option Resp) : List Ev :=
  (send oracle bounceCommand).2

/-- The method `add_spin_animation`, response discarded. -/
def add_spin_animation (oracle : Cmd → Option Resp) : List Ev :=
  (send oracle spinCommand).2

/-- The method `add_pulse_animation`, response discarded. -/
def add_pulse_animation (oracle : Cmd → Option Resp) : List Ev :=
  (send oracle pulseCommand).2

/-- The method `add_animations`: dispatch on the animation keyword, with
dance as the default for an unrecognized keyword; the model name is not used
by any of the animation commands. -/
def add_animations (oracle : Cmd → Option Resp) (_modelName : String)
    (animationType : String) : List Ev :=
  if animationType = "dance" then add_dance_animation oracle
  else if animationType = "bounce" then add_bounce_animation oracle
  else if animationType = "spin" then add_spin_animation oracle
  else if animationType = "pulse" then add_pulse_animation oracle
  else add_dance_animation oracle

/-- The commands `add_animations` sends for a given animation keyword
(helper for stating trace theorems). -/
def animCommands (animationType : String) : List Cmd :=
  if animationType = "dance" then [danceScaleCommand, danceRotationCommand]
  else if animationType = "bounce" then [bounceCommand]
  else if animationType = "spin" then [spinCommand]
  else if animationType = "pulse" then [pulseCommand]
  else [danceScaleCommand, danceRotationCommand]

/-- The theme-scoped USDZ output path of `export_model`. -/
def usdzPath (modelName theme : String) : String :=
  outputDir ++ "/" ++ theme ++ "/" ++ modelName ++ ".usdz"

/-- The export command of `export_model`: USDZ, textures embedded, mesh
optimization enabled, animations included. -/
def exportCommand (modelName theme : String) : Cmd :=
  Cmd.export "USDZ" (usdzPath modelName theme) true true (some true)

/-- The method `export_model` (image_to_3d_pipeline.py lines 338-364): sends
the USDZ export command and raises on a missing or unsuccessful response,
with no fallback of any kind; on success it returns the USDZ path. -/
def export_model (oracle : Cmd → Option Resp) (modelName theme : String) :
    Except String String × List Ev :=
  let (r, ev) := send oracle (exportCommand modelName theme)
  if respOk r then (Except.ok (usdzPath modelName theme), ev)
  else (Except.error "Failed to export USDZ", ev)

/-- The method `process_image_to_3d`: classify, create the model, add the
animations, export.  `analyze` is the outcome of `analyze_image` (external
image decoding; it raises ValueError on an unreadable image), recorded as a
classify event; `update_theme_config` only writes JSON files and sends no
command, so it does not appear in the event trace. -/
def process_image_to_3d (oracle : Cmd → Option Resp)
    (analyze : String → Except String ImageData)
    (imagePath theme animationType : String) :
    Except String String × List Ev :=
  match analyze imagePath with
  | Except.error e => (Except.error e, [Ev.classify imagePath])
  | Except.ok data =>
    match create_3d_model_from_image oracle imagePath data with
    | (Except.error e, ev) => (Except.error e, Ev.classify imagePath :: ev)
    | (Except.ok modelName, ev) =>
      let evAnim := add_animations oracle modelName animationType
      match export_model oracle modelName theme with
      | (Except.error e, evE) =>
        (Except.error e, Ev.classify imagePath :: (ev ++ evAnim ++ evE))
      | (Except.ok path, evE) =>
        (Except.ok path, Ev.classify imagePath :: (ev ++ evAnim ++ evE))

/-- One row of the batch report `process_batch_images` builds. -/
structure BatchEntry where
  image : String
  usdz : Option String
  status : String
  error : Option String
deriving DecidableEq

/-- One iteration of the batch loop of `process_batch_images`: the whole job
runs under `try`; an exception from `process_image_to_3d` or from
`create_swift_integration` (the `swift` oracle, a file write) is caught and
recorded as a failed entry with its error detail, and the loop goes on. -/
def batchEntry (oracle : Cmd → Option Resp)
    (analyze : String → Except String ImageData)
    (swift : String → Except String Unit)
    (theme imageFile : String) : BatchEntry × List Ev :=
  match process_image_to_3d oracle analyze imageFile theme "dance" with
  | (Except.ok path, ev) =>
    match swift imageFile with
    | Except.ok _ => (⟨imageFile, some path, "success", none⟩, ev)
    | Except.error e => (⟨imageFile, none, "failed", some e⟩, ev)
  | (Except.error e, ev) => (⟨imageFile, none, "failed", some e⟩, ev)

/-- The batch loop of `process_batch_images`, in input order. -/
def batchLoop (oracle : Cmd → Option Resp)
    (analyze : String → Except String ImageData)
    (swift : String → Except String Unit) (theme : String) :
    List String → List BatchEntry × List Ev
  | [] => ([], [])
  | f :: fs =>
    let (entry, ev) := batchEntry oracle analyze swift theme f
    let (rest, evs) := batchLoop oracle analyze swift theme fs
    (entry :: rest, ev ++ evs)

/-- The method `process_batch_images`: raises when the folder is missing or
holds no image file (both external facts, passed as parameters), then builds
one report entry per image file. -/
def process_batch_images (oracle : Cmd → Option Resp)
    (analyze : String → Except String ImageData)
    (swift : String → Except String Unit)
    (folderExists : Bool) (imageFiles : List String) (theme : String) :
    Except String (List BatchEntry) × List Ev :=
  if folderExists = false then (Except.error "Image folder not found", [])
  else if imageFiles = [] then (Except.error "No image files found", [])
  else
    let (entries, evs) := batchLoop oracle analyze swift theme imageFiles
    (Except.ok entries, evs)

end ImagePipeline

namespace ProcessImages

/-- The function `batch_process` of process_images.py: after the folder and
image-list checks it connects to the engine (`connected` is the outcome of
`connect_to_blender`) and returns at once when the connection fails; only
with a connection does it run `process_batch_images`.  `none` models the
bare `return` of every early exit (the surrounding `try` also catches any
exception the batch raises). -/
def batch_process (oracle : Cmd → Option Resp)
    (analyze : String → Except String ImageData)
    (swift : String → Except String Unit)
    (folderExists : Bool) (imageFiles : List String) (theme : String)
    (connected : Bool) :
    Option (Except String (List ImagePipeline.BatchEntry)) × List Ev :=
  if folderExists = false then (none, [])
  else if imageFiles = [] then (none, [])
  else if connected = false then (none, [])
  else
    let (res, evs) :=
      ImagePipeline.process_batch_images oracle analyze swift folderExists
        imageFiles theme
    (some res, evs)

end ProcessImages

namespace SimplePipeline

/-- The theme-scoped USDZ output path of `export_model`. -/
def usdzPath (modelName theme : String) : String :=
  outputDir ++ "/" ++ theme ++ "/" ++ modelName ++ ".usdz"

/-- The theme-scoped GLB output path of `export_as_glb`. -/
def glbPath (modelName theme : String) : String :=
  outputDir ++ "/" ++ theme ++ "/" ++ modelName ++ ".glb"

/-- The method `export_as_glb` of simple_3d_pipeline.py: sends the GLB
export script as an execute_code command and raises on a missing or
unsuccessful response. -/
def export_as_glb (oracle : Cmd → Option Resp) (modelName theme : String) :
    Except String String × List Ev :=
  let (r, ev) :=
    send oracle (Cmd.executeCode (Script.glbExport modelName (glbPath modelName theme)))
  if respOk r then (Except.ok (glbPath modelName theme), ev)
  else (Except.error "Failed to export model", ev)

/-- The method `export_model` of simple_3d_pipeline.py: sends the USDZ
export script as an execute_code command; on a missing or unsuccessful
response it falls back once to `export_as_glb`. -/
def export_model (oracle : Cmd → Option Resp) (modelName theme : String) :
    Except String String × List Ev :=
  let (r, ev) :=
    send oracle (Cmd.executeCode (Script.usdzExport modelName (usdzPath modelName theme)))
  if respOk r then (Except.ok (usdzPath modelName theme), ev)
  else
    let (res, ev2) := export_as_glb oracle modelName theme
    (res, ev ++ ev2)

end SimplePipeline

namespace Medical

/-- A material entry of the device tables of create_medical_assets.py. -/
structure DeviceMaterial where
  name : String
  color : List ℚ
  metallic : ℚ
  roughness : ℚ
deriving DecidableEq

/-- One device entry of the table in `create_medical_devices`: the geometry
kind and its kind-specific parameters, and the material to apply. -/
structure Device where
  name : String
  dtype : String
  radius : Option ℚ
  height : Option ℚ
  size : Option ℚ
  location : List ℚ
  material : DeviceMaterial
deriving DecidableEq

/-- The five-entry device table of `create_medical_devices`
(create_medical_assets.py lines 134-165). -/
def devices : List Device :=
  [⟨"stethoscope", "cylinder", some (0.1 : ℚ), some (0.8 : ℚ), none, [0, 0, 0],
      ⟨"Stethoscope_Metal", [(0.7 : ℚ), (0.7 : ℚ), (0.7 : ℚ)], 1, (0.1 : ℚ)⟩⟩,
   ⟨"syringe", "cylinder", some (0.05 : ℚ), some (0.3 : ℚ), none, [0, 0, 0],
      ⟨"Syringe_Plastic", [(0.9 : ℚ), (0.9 : ℚ), (0.9 : ℚ)], 0, (0.8 : ℚ)⟩⟩,
   ⟨"thermometer", "cylinder", some (0.02 : ℚ), some (0.15 : ℚ), none, [0, 0, 0],
      ⟨"Thermometer_Glass", [(0.8 : ℚ), (0.9 : ℚ), 1], 0, (0.1 : ℚ)⟩⟩,
   ⟨"anatomy_heart", "sphere", some (0.5 : ℚ), none, none, [0, 0, 0],
      ⟨"Heart_Tissue", [(0.8 : ℚ), (0.2 : ℚ), (0.2 : ℚ)], 0, (0.9 : ℚ)⟩⟩,
   ⟨"surgical_scalpel", "cube", none, none, some (0.8 : ℚ), [0, 0, 0],
      ⟨"Scalpel_Metal", [(0.8 : ℚ), (0.8 : ℚ), (0.8 : ℚ)], 1, (0.2 : ℚ)⟩⟩]

/-- The create_object command for one device, via `create_cylinder`,
`create_sphere` or `create_cube` of BlenderMCPClient (every entry of the
fixed device table has one of these three kinds). -/
def deviceCreateCmd (d : Device) : Cmd :=
  if d.dtype = "cylinder" then
    Cmd.createObject "CYLINDER" d.location d.radius d.height none
  else if d.dtype = "sphere" then
    Cmd.createObject "SPHERE" d.location d.radius none none
  else
    Cmd.createObject "CUBE" d.location none none d.size

/-- The apply_material command of `BlenderMCPClient.apply_material`. -/
def materialCmd (m : DeviceMaterial) : Cmd :=
  Cmd.applyMaterial m.name m.color m.metallic m.roughness

/-- The export command of `BlenderMCPClient.export_usdz` for one device
(this call site passes no include_animations parameter). -/
def exportUsdzCmd (d : Device) : Cmd :=
  Cmd.export "USDZ" (outputDir ++ "/" ++ d.name ++ ".usdz") true true none

/-- One iteration of the device loop of `create_medical_devices`: create the
geometry, and only on success apply the material, and only on success export;
then always delete the object and `time.sleep(1)`. -/
def processDevice (oracle : Cmd → Option Resp) (d : Device) : List Ev :=
  let (r1, ev1) := send oracle (deviceCreateCmd d)
  let evs :=
    if respOk r1 then
      let (r2, ev2) := send oracle (materialCmd d.material)
      if respOk r2 then
        let (_, ev3) := send oracle (exportUsdzCmd d)
        ev1 ++ ev2 ++ ev3
      else ev1 ++ ev2
    else ev1
  evs ++ [Ev.cmd (Cmd.deleteObject none), Ev.sleep 1]

/-- The event trace of `create_medical_devices` over its fixed device table. -/
def create_medical_devices (oracle : Cmd → Option Resp) : List Ev :=
  (devices.map (processDevice oracle)).flatten

end Medical

/-- Oracle of a mocked engine answering every command with status success. -/
def allSuccess : Cmd → Option Resp := fun _ => some successResp

/-- A concrete triangle descriptor for witness runs. -/
def triData : ImageData := ⟨512, 512, "triangle", (34, 139, 34), 1000, 3⟩

/-- An analysis oracle that classifies every image as the triangle above. -/
def analyzeTri : String → Except String ImageData := fun _ => Except.ok triData

/-- An analysis oracle that fails on bad.png (undecodable image) and returns
the triangle descriptor otherwise. -/
def analyzeFailBad : String → Except String ImageData := fun p =>
  if p = "bad.png" then Except.error "Could not load image" else Except.ok triData

/-- A swift-integration oracle whose file write always succeeds. -/
def swiftOk : String → Except String Unit := fun _ => Except.ok ()

/-- A mocked engine that fails every export command and succeeds otherwise. -/
def failExportOracle : Cmd → Option Resp := fun c =>
  match c with
  | Cmd.export _ _ _ _ _ => none
  | _ => some successResp

/-- A mocked engine that fails every create_object command and succeeds
otherwise. -/
def failCreateOracle : Cmd → Option Resp := fun c =>
  match c with
  | Cmd.createObject _ _ _ _ _ => none
  | _ => some successResp

/-- A mocked engine that fails every apply_texture command and succeeds
otherwise. -/
def failTextureOracle : Cmd → Option Resp := fun c =>
  match c with
  | Cmd.applyTexture _ _ _ => none
  | _ => some successResp

/-! ## Helper lemmas -/

/-- Python max picks an element of its input list. -/
theorem pyMaxBy_mem {α : Type} (f : α → ℚ) (c : α) (cs : List α) :
    pyMaxBy f c cs ∈ c :: cs := by
  induction cs generalizing c with
  | nil => simp [pyMaxBy]
  | cons x xs ih =>
    by_cases h : f x > f c
    · simp only [pyMaxBy, if_pos h]
      exact List.mem_cons_of_mem _ (ih x)
    · simp only [pyMaxBy, if_neg h]
      rcases List.mem_cons.mp (ih c) with h1 | h1
      · rw [h1]; exact List.mem_cons_self _ _
      · exact List.mem_cons_of_mem _ (List.mem_cons_of_mem _ h1)

/-- The key of the starting element never exceeds the maximum key. -/
theorem le_pyMaxBy {α : Type} (f : α → ℚ) (c : α) (cs : List α) :
    f c ≤ f (pyMaxBy f c cs) := by
  induction cs generalizing c with
  | nil => simp [pyMaxBy]
  | cons x xs ih =>
    by_cases h : f x > f c
    · simp only [pyMaxBy, if_pos h]
      exact le_trans (le_of_lt h) (ih x)
    · simp only [pyMaxBy, if_neg h]
      exact ih c

/-- Python max attains the maximum key over the whole list. -/
theorem pyMaxBy_le {α : Type} (f : α → ℚ) (c : α) (cs : List α) :
    ∀ d ∈ c :: cs, f d ≤ f (pyMaxBy f c cs) := by
  induction cs generalizing c with
  | nil =>
    intro d hd
    rcases List.mem_cons.mp hd with h | h
    · rw [h]; simp [pyMaxBy]
    · simp at h
  | cons x xs ih =>
    intro d hd
    rcases List.mem_cons.mp hd with h | h
    · rw [h]
      exact le_pyMaxBy f c (x :: xs)
    · by_cases hx : f x > f c
      · simp only [pyMaxBy, if_pos hx]
        exact ih x d h
      · simp only [pyMaxBy, if_neg hx]
        rcases List.mem_cons.mp h with h2 | h2
        · rw [h2]
          exact le_trans (not_lt.mp hx) (le_pyMaxBy f c xs)
        · exact ih c d (List.mem_cons_of_mem _ h2)

/-- The command trace of `add_animations` is `animCommands` sent in order. -/
theorem add_animations_eq (oracle : Cmd → Option Resp) (m t : String) :
    ImagePipeline.add_animations oracle m t =
      (ImagePipeline.animCommands t).map Ev.cmd := by
  by_cases h1 : t = "dance"
  · simp [ImagePipeline.add_animations, ImagePipeline.animCommands, h1,
      ImagePipeline.add_dance_animation, send]
  · by_cases h2 : t = "bounce"
    · simp [ImagePipeline.add_animations, ImagePipeline.animCommands, h1, h2,
        ImagePipeline.add_bounce_animation, send]
    · by_cases h3 : t = "spin"
      · simp [ImagePipeline.add_animations, ImagePipeline.animCommands, h1, h2,
          h3, ImagePipeline.add_spin_animation, send]
      · by_cases h4 : t = "pulse"
        · simp [ImagePipeline.add_animations, ImagePipeline.animCommands, h1,
            h2, h3, h4, ImagePipeline.add_pulse_animation, send]
        · simp [ImagePipeline.add_animations, ImagePipeline.animCommands, h1,
            h2, h3, h4, ImagePipeline.add_dance_animation, send]

/-- Every command `add_animations` can send is an add_animation command. -/
theorem animCommands_areAnim (t : String) :
    ∀ a ∈ ImagePipeline.animCommands t, isAnimCmdEv (Ev.cmd a) = true := by
  unfold ImagePipeline.animCommands
  split_ifs <;> intro a ha <;> fin_cases ha <;> rfl

/-- The report rows of the batch loop, one per input image in order. -/
theorem batchLoop_fst (oracle : Cmd → Option Resp)
    (analyze : String → Except String ImageData)
    (swift : String → Except String Unit) (theme : String) :
    ∀ fs : List String,
      (ImagePipeline.batchLoop oracle analyze swift theme fs).1 =
        fs.map (fun f => (ImagePipeline.batchEntry oracle analyze swift theme f).1)
  | [] => rfl
  | f :: fs => by
    simp [ImagePipeline.batchLoop, batchLoop_fst oracle analyze swift theme fs]

/-- Every report row names the image it was built from. -/
theorem batchEntry_image (oracle : Cmd → Option Resp)
    (analyze : String → Except String ImageData)
    (swift : String → Except String Unit) (theme f : String) :
    (ImagePipeline.batchEntry oracle analyze swift theme f).1.image = f := by
  rcases h : ImagePipeline.process_image_to_3d oracle analyze f theme "dance"
    with ⟨res, ev⟩
  cases res with
  | ok path =>
    cases hsw : swift f with
    | ok u => simp [ImagePipeline.batchEntry, h, hsw]
    | error e => simp [ImagePipeline.batchEntry, h, hsw]
  | error e => simp [ImagePipeline.batchEntry, h]

/-- Cmd events are not sleeps. -/
theorem isSleepEv_cmd (c : Cmd) : isSleepEv (Ev.cmd c) = false := rfl

/-- Classifier events are not sleeps. -/
theorem isSleepEv_classify (p : String) : isSleepEv (Ev.classify p) = false := rfl

/-- The texture step never sleeps. -/
theorem countSleep_texture (oracle : Cmd → Option Resp) (p : String) :
    (ImagePipeline.apply_image_texture oracle p).countP isSleepEv = 0 := by
  by_cases h : respOk (oracle (ImagePipeline.textureCommand p))
  · simp [ImagePipeline.apply_image_texture, send, h, isSleepEv]
  · simp [ImagePipeline.apply_image_texture, ImagePipeline.apply_material_color,
      send, h, isSleepEv]

/-- The geometry-creation step never sleeps. -/
theorem countSleep_create (oracle : Cmd → Option Resp) (p : String)
    (data : ImageData) :
    (ImagePipeline.create_3d_model_from_image oracle p data).2.countP isSleepEv
      = 0 := by
  by_cases h : respOk (oracle (ImagePipeline.createCommand data.shape_type))
  · simp [ImagePipeline.create_3d_model_from_image, send, h, isSleepEv,
      countSleep_texture, List.countP_append]
  · simp [ImagePipeline.create_3d_model_from_image, send, h, isSleepEv]

/-- The animation step never sleeps. -/
theorem countSleep_anims (oracle : Cmd → Option Resp) (m t : String) :
    (ImagePipeline.add_animations oracle m t).countP isSleepEv = 0 := by
  simp [add_animations_eq, List.countP_map, Function.comp, isSleepEv]

/-- The export step never sleeps. -/
theorem countSleep_export (oracle : Cmd → Option Resp) (m t : String) :
    (ImagePipeline.export_model oracle m t).2.countP isSleepEv = 0 := by
  by_cases h : respOk (oracle (ImagePipeline.exportCommand m t)) <;>
    simp [ImagePipeline.export_model, send, h, isSleepEv]

/-- A whole per-image job never sleeps. -/
theorem countSleep_process (oracle : Cmd → Option Resp)
    (analyze : String → Except String ImageData) (p t a : String) :
    (ImagePipeline.process_image_to_3d oracle analyze p t a).2.countP isSleepEv
      = 0 := by
  unfold ImagePipeline.process_image_to_3d
  cases han : analyze p with
  | error e => simp [isSleepEv]
  | ok data =>
    rcases hc : ImagePipeline.create_3d_model_from_image oracle p data
      with ⟨res, ev⟩
    have hev : ev.countP isSleepEv = 0 := by
      have h2 := countSleep_create oracle p data
      rw [hc] at h2
      exact h2
    cases res with
    | error e => simp [hc, isSleepEv, hev]
    | ok m =>
      rcases he : ImagePipeline.export_model oracle m t with ⟨res2, ev2⟩
      have hev2 : ev2.countP isSleepEv = 0 := by
        have h3 := countSleep_export oracle m t
        rw [he] at h3
        exact h3
      cases res2 <;>
        simp [hc, he, isSleepEv, List.countP_append, hev, hev2,
          countSleep_anims]

/-- One batch iteration never sleeps. -/
theorem countSleep_batchEntry (oracle : Cmd → Option Resp)
    (analyze : String → Except String ImageData)
    (swift : String → Except String Unit) (theme f : String) :
    (ImagePipeline.batchEntry oracle analyze swift theme f).2.countP isSleepEv
      = 0 := by
  rcases h : ImagePipeline.process_image_to_3d oracle analyze f theme "dance"
    with ⟨res, ev⟩
  have hev : ev.countP isSleepEv = 0 := by
    have h2 := countSleep_process oracle analyze f theme "dance"
    rw [h] at h2
    exact h2
  cases res with
  | ok path => cases hsw : swift f <;> simp [ImagePipeline.batchEntry, h, hsw, hev]
  | error e => simp [ImagePipeline.batchEntry, h, hev]

/-- The whole batch loop never sleeps. -/
theorem countSleep_batchLoop (oracle : Cmd → Option Resp)
    (analyze : String → Except String ImageData)
    (swift : String → Except String Unit) (theme : String) :
    ∀ fs : List String,
      (ImagePipeline.batchLoop oracle analyze swift theme fs).2.countP isSleepEv
        = 0
  | [] => rfl
  | f :: fs => by
    simp [ImagePipeline.batchLoop, List.countP_append, countSleep_batchEntry,
      countSleep_batchLoop oracle analyze swift theme fs]

/-- The batch orchestrator never sleeps. -/
theorem countSleep_batch (oracle : Cmd → Option Resp)
    (analyze : String → Except String ImageData)
    (swift : String → Except String Unit) (folderExists : Bool)
    (imageFiles : List String) (theme : String) :
    (ImagePipeline.process_batch_images oracle analyze swift folderExists
        imageFiles theme).2.countP isSleepEv = 0 := by
  unfold ImagePipeline.process_batch_images
  split_ifs <;> simp [countSleep_batchLoop]

/-- Each medical-device iteration sleeps exactly once. -/
theorem countSleep_processDevice (oracle : Cmd → Option Resp)
    (d : Medical.Device) :
    (Medical.processDevice oracle d).countP isSleepEv = 1 := by
  by_cases h1 : respOk (oracle (Medical.deviceCreateCmd d))
  · by_cases h2 : respOk (oracle (Medical.materialCmd d.material))
    · simp [Medical.processDevice, send, h1, h2, List.countP_append, isSleepEv]
    · simp [Medical.processDevice, send, h1, h2, List.countP_append, isSleepEv]
  · simp [Medical.processDevice, send, h1, List.countP_append, isSleepEv]

/-- Each medical-device iteration ends with the delete command followed by
the fixed one-second sleep, whatever the engine answered. -/
theorem processDevice_ends_sleep (oracle : Cmd → Option Resp)
    (d : Medical.Device) :
    ∃ evs, Medical.processDevice oracle d =
      evs ++ [Ev.cmd (Cmd.deleteObject none), Ev.sleep 1] :=
  ⟨_, rfl⟩

/-- The medical-device loop sleeps once per device. -/
theorem countSleep_devices (oracle : Cmd → Option Resp) :
    ∀ ds : List Medical.Device,
      ((ds.map (Medical.processDevice oracle)).flatten).countP isSleepEv
        = ds.length
  | [] => rfl
  | d :: ds => by
    simp [List.countP_append, countSleep_processDevice,
      countSleep_devices oracle ds, Nat.add_comm]

/-! ## Claim theorems -/

/-- C2 (counterexample): a three-point contour (a clean triangle, approximated
by the oracle to itself, hence 3 vertices) is classified circle by the code,
while the claimed vertex-count rule would give triangle: the code skips the
approximation whenever the selected contour has 4 or fewer points. -/
theorem C2_counterexample :
    shapeType (fun _ => 8) (fun _ => 12) (fun c _ => c)
        [[((0 : ℤ), (0 : ℤ)), (4, 0), (0, 4)]] = "circle" ∧
    specShapeType (fun _ => 8) (fun _ => 12) (fun c _ => c)
        [[((0 : ℤ), (0 : ℤ)), (4, 0), (0, 4)]] = some "triangle" :=
  ⟨rfl, rfl⟩

/-- C2 (amended): for a nonempty contour list the classifier selects a
contour of maximum area (Python max semantics: the first one attaining the
maximum); only when that contour has more than 4 points does it classify by
the vertex count of the approximation at tolerance 2 percent of the
perimeter (3 triangle, 4 rectangle, more than 4 complex, 2 or fewer circle,
as `specShapeType` states the claimed rule); with 4 or fewer points the
class is circle without approximation. -/
theorem C2_amended (area len : Contour → ℚ) (apx : Contour → ℚ → Contour)
    (c : Contour) (cs : List Contour) :
    ∃ largest, largest ∈ c :: cs ∧ (∀ d ∈ c :: cs, area d ≤ area largest) ∧
      shapeType area len apx (c :: cs) =
        (if largest.numPoints > 4 then
           Option.getD (specShapeType area len apx (c :: cs)) "circle"
         else "circle") := by
  refine ⟨pyMaxBy area c cs, pyMaxBy_mem area c cs, pyMaxBy_le area c cs, ?_⟩
  simp only [shapeType, specShapeType, Option.getD]

/-- C3 (amended): the Simple3DPipeline export step requests USDZ first; on a
missing or unsuccessful response it falls back exactly once to GLB, and the
job fails only when both fail.  The ImageTo3DPipeline export step requests
USDZ (textures embedded, mesh optimization enabled) and fails the job at
once on failure, with no fallback. -/
theorem C3_amended (oracle : Cmd → Option Resp) (modelName theme : String) :
    SimplePipeline.export_model oracle modelName theme =
      (if respOk (oracle (Cmd.executeCode
            (Script.usdzExport modelName (SimplePipeline.usdzPath modelName theme)))) then
         (Except.ok (SimplePipeline.usdzPath modelName theme),
          [Ev.cmd (Cmd.executeCode
            (Script.usdzExport modelName (SimplePipeline.usdzPath modelName theme)))])
       else if respOk (oracle (Cmd.executeCode
            (Script.glbExport modelName (SimplePipeline.glbPath modelName theme)))) then
         (Except.ok (SimplePipeline.glbPath modelName theme),
          [Ev.cmd (Cmd.executeCode
             (Script.usdzExport modelName (SimplePipeline.usdzPath modelName theme))),
           Ev.cmd (Cmd.executeCode
             (Script.glbExport modelName (SimplePipeline.glbPath modelName theme)))])
       else
         (Except.error "Failed to export model",
          [Ev.cmd (Cmd.executeCode
             (Script.usdzExport modelName (SimplePipeline.usdzPath modelName theme))),
           Ev.cmd (Cmd.executeCode
             (Script.glbExport modelName (SimplePipeline.glbPath modelName theme)))]))
    ∧ ImagePipeline.export_model oracle modelName theme =
      (if respOk (oracle (ImagePipeline.exportCommand modelName theme)) then
         (Except.ok (ImagePipeline.usdzPath modelName theme),
          [Ev.cmd (ImagePipeline.exportCommand modelName theme)])
       else
         (Except.error "Failed to export USDZ",
          [Ev.cmd (ImagePipeline.exportCommand modelName theme)])) := by
  constructor
  · by_cases h1 : respOk (oracle (Cmd.executeCode
        (Script.usdzExport modelName (SimplePipeline.usdzPath modelName theme))))
    · simp [SimplePipeline.export_model, send, h1]
    · by_cases h2 : respOk (oracle (Cmd.executeCode
          (Script.glbExport modelName (SimplePipeline.glbPath modelName theme))))
      · simp [SimplePipeline.export_model, SimplePipeline.export_as_glb, send, h1, h2]
      · simp [SimplePipeline.export_model, SimplePipeline.export_as_glb, send, h1, h2]
  · by_cases h3 : respOk (oracle (ImagePipeline.exportCommand modelName theme))
    · simp [ImagePipeline.export_model, send, h3]
    · simp [ImagePipeline.export_model, send, h3]

/-- C3 (counterexample): in an ImageTo3DPipeline build where the engine fails
the export command and succeeds on everything else, the job fails after a
single export request and no GLB request is ever issued: contrary to the
claim, there is no fallback and the job fails although GLB was never tried. -/
theorem C3_counterexample :
    (ImagePipeline.process_image_to_3d failExportOracle analyzeTri "tree.png"
        "christmas" "dance").1 = Except.error "Failed to export USDZ" ∧
    List.countP isExportCmdEv (ImagePipeline.process_image_to_3d failExportOracle
        analyzeTri "tree.png" "christmas" "dance").2 = 1 ∧
    List.countP isGlbExportEv (ImagePipeline.process_image_to_3d failExportOracle
        analyzeTri "tree.png" "christmas" "dance").2 = 0 :=
  ⟨rfl, rfl, rfl⟩

/-- C8: when the initial connection attempt fails, `batch_process` returns at
once: no report is produced, no classifier invocation and no command appears
in the event trace, whatever the engine, the images and the theme. -/
theorem C8_connection_failure (oracle : Cmd → Option Resp)
    (analyze : String → Except String ImageData)
    (swift : String → Except String Unit)
    (folderExists : Bool) (imageFiles : List String) (theme : String) :
    ProcessImages.batch_process oracle analyze swift folderExists imageFiles
      theme false = (none, []) := by
  unfold ProcessImages.batch_process
  split_ifs <;> first | rfl | simp_all

/-- C1 (counterexample): with a mocked engine answering every command with
status success, a default (dance) build issues two AddAnimation commands, not
exactly one as claimed, and still succeeds. -/
theorem C1_counterexample :
    List.countP isAnimCmdEv (ImagePipeline.process_image_to_3d allSuccess
        analyzeTri "tree.png" "christmas" "dance").2 = 2 ∧
    (ImagePipeline.process_image_to_3d allSuccess analyzeTri "tree.png"
        "christmas" "dance").1 =
      Except.ok "/Volumes/Folk_DAS/Apps/MacroAI/3D_Assets/christmas/tree.usdz" :=
  ⟨rfl, rfl⟩

/-- C1 (amended): when the engine answers every command with status success,
the build issues exactly one CreateObject, then exactly one texture-or-material
command (the texture command alone, since it succeeded), then the AddAnimation
commands of the selected animation kind — two (scale then rotation) for dance
and for any unrecognized kind, one for bounce, spin or pulse — then exactly
one Export, in that order with nothing else interleaved, and returns the
exported path. -/
theorem C1_amended (oracle : Cmd → Option Resp)
    (analyze : String → Except String ImageData) (data : ImageData)
    (imagePath theme animationType : String)
    (hAn : analyze imagePath = Except.ok data)
    (hOk : ∀ c, respOk (oracle c) = true) :
    (ImagePipeline.process_image_to_3d oracle analyze imagePath theme
        animationType).1 =
      Except.ok (ImagePipeline.usdzPath (pathStem imagePath) theme) ∧
    (ImagePipeline.process_image_to_3d oracle analyze imagePath theme
        animationType).2 =
      Ev.classify imagePath ::
        Ev.cmd (ImagePipeline.createCommand data.shape_type) ::
        Ev.cmd (ImagePipeline.textureCommand imagePath) ::
        ((ImagePipeline.animCommands animationType).map Ev.cmd ++
          [Ev.cmd (ImagePipeline.exportCommand (pathStem imagePath) theme)]) ∧
    (ImagePipeline.animCommands "dance").length = 2 ∧
    (∀ t, (t = "bounce" ∨ t = "spin" ∨ t = "pulse") →
      (ImagePipeline.animCommands t).length = 1) ∧
    (∀ a ∈ ImagePipeline.animCommands animationType,
      isAnimCmdEv (Ev.cmd a) = true) := by
  have hc := hOk (ImagePipeline.createCommand data.shape_type)
  have ht := hOk (ImagePipeline.textureCommand imagePath)
  have he := hOk (ImagePipeline.exportCommand (pathStem imagePath) theme)
  refine ⟨?_, ?_, rfl, ?_, animCommands_areAnim animationType⟩
  · simp [ImagePipeline.process_image_to_3d, hAn,
      ImagePipeline.create_3d_model_from_image, send,
      ImagePipeline.apply_image_texture, hc, ht,
      ImagePipeline.export_model, he]
  · simp [ImagePipeline.process_image_to_3d, hAn,
      ImagePipeline.create_3d_model_from_image, send,
      ImagePipeline.apply_image_texture, hc, ht,
      ImagePipeline.export_model, he, add_animations_eq]
  · intro t htv
    rcases htv with h | h | h <;> simp [ImagePipeline.animCommands, h]

/-- C1 (witness): the amended trace at a concrete all-success dance run. -/
theorem C1_amended_witness :
    (ImagePipeline.process_image_to_3d allSuccess analyzeTri "tree.png"
        "christmas" "dance").2 =
      Ev.classify "tree.png" ::
        Ev.cmd (ImagePipeline.createCommand triData.shape_type) ::
        Ev.cmd (ImagePipeline.textureCommand "tree.png") ::
        ((ImagePipeline.animCommands "dance").map Ev.cmd ++
          [Ev.cmd (ImagePipeline.exportCommand (pathStem "tree.png") "christmas")]) :=
  (C1_amended allSuccess analyzeTri triData "tree.png" "christmas" "dance" rfl
    (fun _ => rfl)).2.1

/-- C4: with an existing folder and a nonempty image list, the batch always
produces a report with exactly one row per input image in input order, each
row depending only on its own image and recording that image; in particular
an exception in one job (classification, build, export, or the swift file
write) is caught into its own failed row and never stops the others. -/
theorem C4_batch_isolation (oracle : Cmd → Option Resp)
    (analyze : String → Except String ImageData)
    (swift : String → Except String Unit)
    (imageFiles : List String) (theme : String)
    (h : imageFiles ≠ []) :
    ∃ report,
      (ImagePipeline.process_batch_images oracle analyze swift true imageFiles
          theme).1 = Except.ok report ∧
      report.length = imageFiles.length ∧
      report.map ImagePipeline.BatchEntry.image = imageFiles ∧
      report = imageFiles.map
        (fun f => (ImagePipeline.batchEntry oracle analyze swift theme f).1) := by
  refine ⟨imageFiles.map
    (fun f => (ImagePipeline.batchEntry oracle analyze swift theme f).1),
    ?_, by simp, ?_, rfl⟩
  · simp [ImagePipeline.process_batch_images, h, batchLoop_fst]
  · rw [List.map_map]
    have hrec : ∀ fs : List String, fs.map
        (fun f => (ImagePipeline.batchEntry oracle analyze swift theme f).1.image)
        = fs := by
      intro fs
      induction fs with
      | nil => rfl
      | cons a as ih => simp [batchEntry_image, ih]
    simpa [Function.comp] using hrec imageFiles

/-- C4 (witness): a concrete three-image batch whose middle image is
undecodable still yields a three-row report in input order. -/
theorem C4_batch_isolation_witness :
    ∃ report,
      (ImagePipeline.process_batch_images allSuccess analyzeFailBad swiftOk true
          ["good1.png", "bad.png", "good2.png"] "christmas").1 =
        Except.ok report ∧
      report.length = (["good1.png", "bad.png", "good2.png"] : List String).length ∧
      report.map ImagePipeline.BatchEntry.image =
        ["good1.png", "bad.png", "good2.png"] ∧
      report = (["good1.png", "bad.png", "good2.png"] : List String).map
        (fun f =>
          (ImagePipeline.batchEntry allSuccess analyzeFailBad swiftOk
            "christmas" f).1) :=
  C4_batch_isolation allSuccess analyzeFailBad swiftOk
    ["good1.png", "bad.png", "good2.png"] "christmas" (by simp)

/-- C5: when the CreateObject response is missing or unsuccessful, the job
raises at once: the trace holds only the classify event and the single
create command — no texture, material, animation or export command — and the
batch records the job as failed. -/
theorem C5_create_failure (oracle : Cmd → Option Resp)
    (analyze : String → Except String ImageData) (data : ImageData)
    (swift : String → Except String Unit)
    (imagePath theme animationType : String)
    (hAn : analyze imagePath = Except.ok data)
    (hFail : respOk (oracle (ImagePipeline.createCommand data.shape_type)) = false) :
    (ImagePipeline.process_image_to_3d oracle analyze imagePath theme
        animationType).1 = Except.error "Failed to create 3D model" ∧
    (ImagePipeline.process_image_to_3d oracle analyze imagePath theme
        animationType).2 =
      [Ev.classify imagePath,
       Ev.cmd (ImagePipeline.createCommand data.shape_type)] ∧
    (ImagePipeline.batchEntry oracle analyze swift theme imagePath).1.status
      = "failed" := by
  refine ⟨?_, ?_, ?_⟩
  · simp [ImagePipeline.process_image_to_3d, hAn,
      ImagePipeline.create_3d_model_from_image, send, hFail]
  · simp [ImagePipeline.process_image_to_3d, hAn,
      ImagePipeline.create_3d_model_from_image, send, hFail]
  · simp [ImagePipeline.batchEntry, ImagePipeline.process_image_to_3d, hAn,
      ImagePipeline.create_3d_model_from_image, send, hFail]

/-- C5 (witness): the failure behavior at a concrete engine that rejects
create_object commands and accepts all others. -/
theorem C5_create_failure_witness :
    (ImagePipeline.process_image_to_3d failCreateOracle analyzeTri "tree.png"
        "christmas" "dance").1 = Except.error "Failed to create 3D model" ∧
    (ImagePipeline.process_image_to_3d failCreateOracle analyzeTri "tree.png"
        "christmas" "dance").2 =
      [Ev.classify "tree.png",
       Ev.cmd (ImagePipeline.createCommand triData.shape_type)] ∧
    (ImagePipeline.batchEntry failCreateOracle analyzeTri swiftOk "christmas"
        "tree.png").1.status = "failed" :=
  C5_create_failure failCreateOracle analyzeTri triData swiftOk "tree.png"
    "christmas" "dance" rfl rfl

/-- C6 (counterexample): a concrete two-image batch in which both asset
creations succeed contains no sleep event at all: the orchestrator enforces
no delay between consecutive successful creations. -/
theorem C6_counterexample :
    (ImagePipeline.process_batch_images allSuccess analyzeTri swiftOk true
        ["a.png", "b.png"] "christmas").1 =
      Except.ok
        [⟨"a.png",
          some "/Volumes/Folk_DAS/Apps/MacroAI/3D_Assets/christmas/a.usdz",
          "success", none⟩,
         ⟨"b.png",
          some "/Volumes/Folk_DAS/Apps/MacroAI/3D_Assets/christmas/b.usdz",
          "success", none⟩] ∧
    List.countP isSleepEv (ImagePipeline.process_batch_images allSuccess
        analyzeTri swiftOk true ["a.png", "b.png"] "christmas").2 = 0 :=
  ⟨rfl, rfl⟩

/-- C6 (amended): the batch orchestrator enforces no delay at all (its event
trace never holds a sleep); the short fixed delay exists only in the
standalone medical-asset generator, whose loop sleeps exactly once per device
— after every iteration, successful or not — right after the delete command. -/
theorem C6_amended :
    (∀ (oracle : Cmd → Option Resp)
        (analyze : String → Except String ImageData)
        (swift : String → Except String Unit) (folderExists : Bool)
        (imageFiles : List String) (theme : String),
      (ImagePipeline.process_batch_images oracle analyze swift folderExists
          imageFiles theme).2.countP isSleepEv = 0) ∧
    (∀ oracle : Cmd → Option Resp,
      (Medical.create_medical_devices oracle).countP isSleepEv =
        Medical.devices.length) ∧
    (∀ (oracle : Cmd → Option Resp) (d : Medical.Device),
      ∃ evs, Medical.processDevice oracle d =
        evs ++ [Ev.cmd (Cmd.deleteObject none), Ev.sleep 1]) :=
  ⟨countSleep_batch,
   fun oracle => countSleep_devices oracle Medical.devices,
   processDevice_ends_sleep⟩

/-- C7: when the ApplyTexture response is missing or unsuccessful, the
builder sends exactly one ApplyMaterial fallback with the flat neutral gray
color right after it, the build goes on through animation and export, the
job result is the exported path, and the batch records the job as successful
— whatever the engine answered to the material command itself. -/
theorem C7_texture_fallback (oracle : Cmd → Option Resp)
    (analyze : String → Except String ImageData) (data : ImageData)
    (swift : String → Except String Unit)
    (imagePath theme animationType : String)
    (hAn : analyze imagePath = Except.ok data)
    (hSw : swift imagePath = Except.ok ())
    (hCreate : respOk (oracle (ImagePipeline.createCommand data.shape_type)) = true)
    (hTex : respOk (oracle (ImagePipeline.textureCommand imagePath)) = false)
    (hExp : respOk (oracle (ImagePipeline.exportCommand (pathStem imagePath) theme)) = true) :
    (ImagePipeline.process_image_to_3d oracle analyze imagePath theme
        animationType).1 =
      Except.ok (ImagePipeline.usdzPath (pathStem imagePath) theme) ∧
    (ImagePipeline.process_image_to_3d oracle analyze imagePath theme
        animationType).2 =
      Ev.classify imagePath ::
        Ev.cmd (ImagePipeline.createCommand data.shape_type) ::
        Ev.cmd (ImagePipeline.textureCommand imagePath) ::
        Ev.cmd ImagePipeline.materialCommand ::
        ((ImagePipeline.animCommands animationType).map Ev.cmd ++
          [Ev.cmd (ImagePipeline.exportCommand (pathStem imagePath) theme)]) ∧
    (ImagePipeline.batchEntry oracle analyze swift theme imagePath).1.status
      = "success" := by
  refine ⟨?_, ?_, ?_⟩
  · simp [ImagePipeline.process_image_to_3d, hAn,
      ImagePipeline.create_3d_model_from_image, send,
      ImagePipeline.apply_image_texture, ImagePipeline.apply_material_color,
      hCreate, hTex, ImagePipeline.export_model, hExp]
  · simp [ImagePipeline.process_image_to_3d, hAn,
      ImagePipeline.create_3d_model_from_image, send,
      ImagePipeline.apply_image_texture, ImagePipeline.apply_material_color,
      hCreate, hTex, ImagePipeline.export_model, hExp, add_animations_eq]
  · simp [ImagePipeline.batchEntry, ImagePipeline.process_image_to_3d, hAn,
      ImagePipeline.create_3d_model_from_image, send,
      ImagePipeline.apply_image_texture, ImagePipeline.apply_material_color,
      hCreate, hTex, ImagePipeline.export_model, hExp, hSw]

/-- C7 (witness): the fallback behavior at a concrete engine that rejects
apply_texture commands and accepts all others. -/
theorem C7_texture_fallback_witness :
    (ImagePipeline.process_image_to_3d failTextureOracle analyzeTri "tree.png"
        "christmas" "dance").1 =
      Except.ok (ImagePipeline.usdzPath (pathStem "tree.png") "christmas") ∧
    (ImagePipeline.process_image_to_3d failTextureOracle analyzeTri "tree.png"
        "christmas" "dance").2 =
      Ev.classify "tree.png" ::
        Ev.cmd (ImagePipeline.createCommand triData.shape_type) ::
        Ev.cmd (ImagePipeline.textureCommand "tree.png") ::
        Ev.cmd ImagePipeline.materialCommand ::
        ((ImagePipeline.animCommands "dance").map Ev.cmd ++
          [Ev.cmd (ImagePipeline.exportCommand (pathStem "tree.png") "christmas")]) ∧
    (ImagePipeline.batchEntry failTextureOracle analyzeTri swiftOk "christmas"
        "tree.png").1.status = "success" :=
  C7_texture_fallback failTextureOracle analyzeTri triData swiftOk "tree.png"
    "christmas" "dance" rfl rfl rfl rfl rfl

/-- C10: the protocol client send operation is total: it returns `none`
exactly when the transport send raised, the receive raised, or the received
bytes do not decode as JSON (which covers a truncated read), and callers
treat `none` as a failed command (`respOk none = false`). -/
theorem C10_send_total (tr : Transport) (jsonLoads : String → Option Resp) :
    (send_blender_command tr jsonLoads = none ↔
      tr = Transport.sendErr ∨ tr = Transport.recvErr ∨
        ∃ raw, tr = Transport.ok raw ∧ jsonLoads raw = none) ∧
    respOk none = false := by
  refine ⟨?_, rfl⟩
  cases tr with
  | sendErr => simp [send_blender_command]
  | recvErr => simp [send_blender_command]
  | ok raw =>
    cases h : jsonLoads raw with
    | none => simp [send_blender_command, h]
    | some r => simp [send_blender_command, h]

end MacroAI
